import Mathlib

/-!
# segbot_logical_navigator.cpp : a shallow embedding

The embedding follows `SegbotLogicalNavigator` member by member.

* The fields of the object (its own and the ones inherited from
  `SegbotLogicalTranslator`) are a record `Navigator`.  The header of the base
  class and `bwi_planning_common` are not part of the sources, so every query
  the navigator makes of them (`getDoorIdx`, `isRobotFacingDoor`, `isDoorOpen`,
  `NO_DOOR_IDX`, ...) is a field of that record: an arbitrary function.
* Coordinates are `float` in the source and are only ever handed to those
  queries; they are rationals here.
* The subscriber callbacks, the action server and the motion client run
  concurrently with `execute`.  They are an environment `Env` sampled at the
  ticks of a logical clock.  The clock advances at every call that takes time:
  a poll of the motion client, a sleep, a service call and a state sensing.
* Loops that wait for the environment take fuel; running out of fuel is the
  fault `outOfFuel`.
-/

namespace SegbotLogicalNavigator

/-! ## Data model -/

/-- The planner atom of `bwi_planning_common`: a name and its arguments. -/
structure PlannerAtom where
  name : String
  value : List String
deriving DecidableEq, Repr

/-- The point type `bwi::Point2f`. -/
structure Point2f where
  x : ℚ
  y : ℚ
deriving DecidableEq, Repr

/-- The message `geometry_msgs::Point`. -/
structure Point where
  x : ℚ
  y : ℚ
  z : ℚ
deriving DecidableEq, Repr

/-- The message `geometry_msgs::Quaternion`. -/
structure Quaternion where
  x : ℚ
  y : ℚ
  z : ℚ
  w : ℚ
deriving DecidableEq, Repr

/-- The message `geometry_msgs::Pose`. -/
structure Pose where
  position : Point
  orientation : Quaternion
deriving DecidableEq, Repr

/-- The message `geometry_msgs::PoseStamped`; the stamp is a clock tick. -/
structure PoseStamped where
  stamp : Nat
  frame_id : String
  pose : Pose
deriving DecidableEq, Repr

/-- The fields of a `SegbotLogicalNavigator` at one instant. The first group is
what the navigator uses of its base class and of `bwi_planning_common`. -/
structure Navigator where
  NO_DOOR_IDX : Nat
  global_frame_id_ : String
  getLocationIdx : Point2f → Nat
  getLocationString : Nat → String
  getNumDoors : Nat
  getDoorString : Nat → String
  getDoorIdx : String → Nat
  resolveDoor : String → Nat
  isRobotFacingDoor : Point2f → ℚ → ℚ → Nat → Bool
  isRobotBesideDoor : Point2f → ℚ → ℚ → Nat → Bool
  isDoorOpen : Nat → Bool
  getApproachPoint : Nat → Point2f → Option (Point2f × ℚ)
  getThroughDoorPoint : Nat → Point2f → Option (Point2f × ℚ)
  object_approach_map_ : String → Option Pose
  robot_x_ : ℚ
  robot_y_ : ℚ
  robot_yaw_ : ℚ
  current_level_id_ : String
  door_proximity_distance_ : ℚ
  change_level_client_available_ : Bool
  level_to_objects_map_ : String → Option (String → Option Pose)

/-! ## senseState -/

/-- The local variables of `senseState` that the door loop updates. -/
structure SenseVars where
  observations : List PlannerAtom
  first_facing : Bool
  first_beside : Bool
  facing_idx : Nat
deriving DecidableEq, Repr

/-- One iteration of the door loop of `senseState` (lines 199-232). -/
def senseStateDoor (s : Navigator) (door_idx : Nat) (v : SenseVars) (door : Nat) : SenseVars :=
  if door_idx ≠ s.NO_DOOR_IDX ∧ door ≠ door_idx then v
  else
    let robot_loc : Point2f := ⟨s.robot_x_, s.robot_y_⟩
    let facing_door : Bool := !v.first_facing &&
      s.isRobotFacingDoor robot_loc s.robot_yaw_ s.door_proximity_distance_ door
    let beside_door : Bool := !v.first_beside &&
      s.isRobotBesideDoor robot_loc s.robot_yaw_ s.door_proximity_distance_ door
    let v1 : SenseVars :=
      if !facing_door then
        ⟨v.observations ++ [⟨"-facing", [s.getDoorString door]⟩],
          v.first_facing, v.first_beside, v.facing_idx⟩
      else
        ⟨v.observations ++ [⟨"facing", [s.getDoorString door]⟩],
          true, v.first_beside, door_idx⟩
    if !beside_door then
      ⟨v1.observations ++ [⟨"-beside", [s.getDoorString door]⟩],
        v1.first_facing, v1.first_beside, v1.facing_idx⟩
    else
      ⟨v1.observations ++ [⟨"beside", [s.getDoorString door]⟩],
        v1.first_facing, true, v1.facing_idx⟩

/-- The door loop of `senseState`: doors `0 .. getNumDoors - 1` in order. -/
def senseStateLoop (s : Navigator) (door_idx : Nat) (v : SenseVars) : SenseVars :=
  (List.range s.getNumDoors).foldl (senseStateDoor s door_idx) v

/-- The member `senseState(observations, door_idx)`: the atoms are pushed at
the back of the vector it is handed (lines 185-246). -/
def senseState (s : Navigator) (observations : List PlannerAtom) (door_idx : Nat) :
    List PlannerAtom :=
  let at_atom : PlannerAtom :=
    ⟨"at", [s.getLocationString (s.getLocationIdx ⟨s.robot_x_, s.robot_y_⟩)]⟩
  let v := senseStateLoop s door_idx ⟨observations ++ [at_atom], false, false, s.NO_DOOR_IDX⟩
  if v.facing_idx ≠ s.NO_DOOR_IDX then
    if s.isDoorOpen v.facing_idx then
      v.observations ++ [⟨"open", [s.getDoorString v.facing_idx]⟩]
    else
      v.observations ++ [⟨"-open", [s.getDoorString v.facing_idx]⟩]
  else v.observations

/-- The default argument of `senseState`: an unfiltered sensing. -/
def senseStateAll (s : Navigator) (observations : List PlannerAtom) : List PlannerAtom :=
  senseState s observations s.NO_DOOR_IDX

/-! ## The environment of a command -/

/-- The terminal and non-terminal states of `actionlib::SimpleClientGoalState`. -/
inductive SimpleClientGoalState where
  | PENDING
  | ACTIVE
  | RECALLED
  | REJECTED
  | PREEMPTED
  | ABORTED
  | SUCCEEDED
  | LOST
deriving DecidableEq, Repr

/-- The request of the service `multi_level_map_msgs::ChangeCurrentLevel`. -/
structure ChangeCurrentLevelRequest where
  new_level_id : String
  publish_initial_pose : Bool
  stamp : Nat
  frame_id : String
  pose : Pose
  covariance : List ℚ
deriving DecidableEq, Repr

/-- The response of the service `multi_level_map_msgs::ChangeCurrentLevel`. -/
structure ChangeCurrentLevelResponse where
  success : Bool
  error_message : String
deriving DecidableEq, Repr

/-- What a command asks of the motion client, the level service and the clock. -/
inductive Action where
  | sendGoal (pose : PoseStamped)
  | waitForResult
  | cancelGoal
  | changeLevel (req : ChangeCurrentLevelRequest)
  | sleep
deriving DecidableEq, Repr

/-- Everything that runs beside `execute`, sampled at the ticks of the clock:
the fields of the navigator as the callbacks leave them, the preemption flag
of the action server, `ros::ok()`, the answers of the motion client and of the
level service, and the two library functions that build messages. -/
structure Env where
  nav : Nat → Navigator
  isPreemptRequested : Nat → Bool
  ok : Nat → Bool
  waitForResult : Nat → Bool
  getState : Nat → SimpleClientGoalState
  change_level_call : Nat → ChangeCurrentLevelRequest → Option ChangeCurrentLevelResponse
  frameIdFromLevelId : String → String
  createQuaternionFromYaw : ℚ → Quaternion

/-- Why a run of the model has no result. -/
inductive Fault where
  | outOfFuel
  | emptyArguments
deriving DecidableEq, Repr

/-- A value with the tick at which it is returned and the actions taken. -/
structure Ret (α : Type) where
  val : α
  now : Nat
  log : List Action
deriving DecidableEq, Repr

/-- What a branch of the dispatcher hands back: the return value and the two
reference arguments, with the tick of return and the actions taken. -/
structure BranchResult where
  success : Bool
  observations : List PlannerAtom
  error_message : String
  now : Nat
  log : List Action
deriving DecidableEq, Repr

/-! ## executeNavigationGoal -/

/-- The polling loop of `executeNavigationGoal` (lines 253-261); the value is
`navigation_request_complete` at the exit of the loop. -/
def navigationLoop (env : Env) : Nat → Nat → Except Fault (Ret Bool)
  | 0, _ => Except.error Fault.outOfFuel
  | fuel + 1, now =>
    if env.isPreemptRequested now || !env.ok now then
      Except.ok ⟨false, now, [Action.cancelGoal]⟩
    else if env.waitForResult now then
      Except.ok ⟨true, now + 1, [Action.waitForResult]⟩
    else
      match navigationLoop env fuel (now + 1) with
      | Except.ok r => Except.ok ⟨r.val, r.now, Action.waitForResult :: r.log⟩
      | Except.error e => Except.error e

/-- The member `executeNavigationGoal(pose)` (lines 248-270). -/
def executeNavigationGoal (env : Env) (fuel now : Nat) (pose : PoseStamped) :
    Except Fault (Ret Bool) :=
  match navigationLoop env fuel now with
  | Except.error e => Except.error e
  | Except.ok r =>
    if r.val then
      Except.ok ⟨decide (env.getState r.now = SimpleClientGoalState.SUCCEEDED), r.now,
        Action.sendGoal pose :: r.log⟩
    else
      Except.ok ⟨false, r.now, Action.sendGoal pose :: r.log⟩

/-! ## The branches of the dispatcher -/

/-- The member `approachDoor(door_name, observations, error_message, gothrough)`
(lines 290-334). -/
def approachDoor (env : Env) (fuel now : Nat) (door_name : String)
    (observations : List PlannerAtom) (gothrough : Bool) : Except Fault BranchResult :=
  let s := env.nav now
  let door_idx := s.getDoorIdx door_name
  if door_idx = s.NO_DOOR_IDX then
    Except.ok ⟨false, observations, "Could not resolve argument: " ++ door_name, now, []⟩
  else
    let door_approachable : Option (Point2f × ℚ) :=
      if !gothrough then s.getApproachPoint door_idx ⟨s.robot_x_, s.robot_y_⟩
      else s.getThroughDoorPoint door_idx ⟨s.robot_x_, s.robot_y_⟩
    match door_approachable with
    | some (approach_pt, approach_yaw) =>
      let pose : PoseStamped := ⟨now, s.global_frame_id_,
        ⟨⟨approach_pt.x, approach_pt.y, 0⟩, env.createQuaternionFromYaw approach_yaw⟩⟩
      match executeNavigationGoal env fuel now pose with
      | Except.error e => Except.error e
      | Except.ok r =>
        Except.ok ⟨r.val, senseState (env.nav r.now) observations door_idx, "", r.now + 1, r.log⟩
    | none =>
      Except.ok ⟨false, observations, "Cannot interact with " ++ door_name ++ " from here.",
        now, []⟩

/-- The member `approachObject(object_name, observations, error_message)`
(lines 336-364); the vector it is handed is cleared first. -/
def approachObject (env : Env) (fuel now : Nat) (object_name : String)
    (_observations : List PlannerAtom) : Except Fault BranchResult :=
  let s := env.nav now
  match s.object_approach_map_ object_name with
  | some object_pose =>
    let pose : PoseStamped := ⟨now, s.global_frame_id_, object_pose⟩
    match executeNavigationGoal env fuel now pose with
    | Except.error e => Except.error e
    | Except.ok r =>
      let closeto : PlannerAtom := ⟨if !r.val then "-closeto" else "closeto", [object_name]⟩
      Except.ok ⟨r.val, senseStateAll (env.nav r.now) [] ++ [closeto], "", r.now + 1, r.log⟩
  | none =>
    Except.ok ⟨false, [], object_name ++ " does not exist.", now, []⟩

/-- The covariance of the initial pose: entries 0, 7 and 35 are one. -/
def initialCovariance : List ℚ :=
  (((List.replicate 36 (0 : ℚ)).set 0 1).set 7 1).set 35 1

/-- The wait of `changeFloor` (line 407):
`while (current_level_id_ != floor_name) r.sleep();`. -/
def changeFloorWait (env : Env) (floor_name : String) : Nat → Nat → Except Fault (Ret Unit)
  | 0, _ => Except.error Fault.outOfFuel
  | fuel + 1, now =>
    if (env.nav now).current_level_id_ ≠ floor_name then
      match changeFloorWait env floor_name fuel (now + 1) with
      | Except.ok r => Except.ok ⟨(), r.now, Action.sleep :: r.log⟩
      | Except.error e => Except.error e
    else
      Except.ok ⟨(), now, []⟩

/-- The member `changeFloor(floor_name, new_start_loc, observations,
error_message)` (lines 366-416); the vector it is handed is cleared first. -/
def changeFloor (env : Env) (fuel now : Nat) (floor_name new_start_loc : String)
    (_observations : List PlannerAtom) : Except Fault BranchResult :=
  let s := env.nav now
  if s.change_level_client_available_ then
    Except.ok ⟨false, [],
      "SegbotLogicalNavigator has not received the multimap. Cannot change floors!", now, []⟩
  else if s.current_level_id_ = floor_name then
    Except.ok ⟨false, [], "The robot is already on " ++ floor_name ++ "!", now, []⟩
  else
    match s.level_to_objects_map_ floor_name with
    | none => Except.ok ⟨false, [], "Floor " ++ floor_name ++ " does not exist!", now, []⟩
    | some objects =>
      match objects new_start_loc with
      | none =>
        Except.ok ⟨false, [], "Location " ++ new_start_loc ++ " on floor " ++ floor_name ++
          " has not been defined as a valid object!", now, []⟩
      | some start_pose =>
        let srv : ChangeCurrentLevelRequest :=
          ⟨floor_name, true, now, env.frameIdFromLevelId floor_name, start_pose,
            initialCovariance⟩
        match env.change_level_call now srv with
        | some response =>
          if !response.success then
            Except.ok ⟨false, [], response.error_message, now + 1, [Action.changeLevel srv]⟩
          else
            match changeFloorWait env floor_name fuel (now + 1) with
            | Except.error e => Except.error e
            | Except.ok w =>
              Except.ok ⟨true, senseStateAll (env.nav w.now) [], "", w.now + 1,
                Action.changeLevel srv :: w.log⟩
        | none =>
          Except.ok ⟨false, [], "ChangeCurrentLevel service call failed for unknown reason.",
            now + 1, [Action.changeLevel srv]⟩

/-- The member `senseDoor(door_name, observations, error_message)`
(lines 418-437). -/
def senseDoor (env : Env) (now : Nat) (door_name : String)
    (observations : List PlannerAtom) : Except Fault BranchResult :=
  let s := env.nav now
  let door_idx := s.resolveDoor door_name
  if door_idx = s.NO_DOOR_IDX then
    Except.ok ⟨false, observations, "Door " ++ door_name ++ " does not exist!", now, []⟩
  else
    let door_open := s.isDoorOpen door_idx
    let open_name : String := if !door_open then "-" ++ "open" else "open"
    Except.ok ⟨true, observations ++ [⟨open_name, [door_name]⟩], "", now, []⟩

/-! ## execute -/

/-- The states in which `execute` leaves the action server. -/
inductive TerminalState where
  | Succeeded
  | Preempted
  | Aborted
deriving DecidableEq, Repr

/-- The message `LogicalNavigationResult`. -/
structure LogicalNavigationResult where
  success : Bool
  observations : List PlannerAtom
  status : String
deriving DecidableEq, Repr

/-- The result `execute` reports, the way it reports it, the tick at which it
does and the actions of the command. -/
structure Outcome where
  res : LogicalNavigationResult
  state : TerminalState
  now : Nat
  log : List Action
deriving DecidableEq, Repr

/-- The read `goal->command.value[0]`; reading it from an empty vector is
undefined in the source and a fault here. -/
def value0 (value : List String) : Except Fault String :=
  match value with
  | [] => Except.error Fault.emptyArguments
  | a :: _ => Except.ok a

/-- The chain of branches of `execute` (lines 441-461), `res.observations`
being empty after `clear()`. -/
def executeBranch (env : Env) (fuel now : Nat) (command : PlannerAtom) :
    Except Fault BranchResult :=
  if command.name = "approach" then
    match value0 command.value with
    | Except.error e => Except.error e
    | Except.ok a => approachDoor env fuel now a [] false
  else if command.name = "gothrough" then
    match value0 command.value with
    | Except.error e => Except.error e
    | Except.ok a => approachDoor env fuel now a [] true
  else if command.name = "sensedoor" then
    match value0 command.value with
    | Except.error e => Except.error e
    | Except.ok a => senseDoor env now a []
  else if command.name = "goto" then
    match value0 command.value with
    | Except.error e => Except.error e
    | Except.ok a => approachObject env fuel now a []
  else if command.name = "changefloor" then
    match value0 command.value with
    | Except.error e => Except.error e
    | Except.ok a => changeFloor env fuel now a a []
  else
    Except.ok ⟨true, senseStateAll (env.nav now) [], "", now + 1, []⟩

/-- The report at the end of `execute` (lines 463-469). -/
def executeReport (env : Env) (b : BranchResult) : Outcome :=
  let res : LogicalNavigationResult := ⟨b.success, b.observations, b.error_message⟩
  if res.success then ⟨res, TerminalState.Succeeded, b.now, b.log⟩
  else if env.isPreemptRequested b.now then ⟨res, TerminalState.Preempted, b.now, b.log⟩
  else ⟨res, TerminalState.Aborted, b.now, b.log⟩

/-- The callback `execute(goal)` (lines 439-471). -/
def execute (env : Env) (fuel now : Nat) (command : PlannerAtom) : Except Fault Outcome :=
  match executeBranch env fuel now command with
  | Except.error e => Except.error e
  | Except.ok b => Except.ok (executeReport env b)

/-! ## Vocabulary of the properties -/

/-- The facing test of door `door` at the pose of the snapshot. -/
def facingTest (s : Navigator) (door : Nat) : Bool :=
  s.isRobotFacingDoor ⟨s.robot_x_, s.robot_y_⟩ s.robot_yaw_ s.door_proximity_distance_ door

/-- The beside test of door `door` at the pose of the snapshot. -/
def besideTest (s : Navigator) (door : Nat) : Bool :=
  s.isRobotBesideDoor ⟨s.robot_x_, s.robot_y_⟩ s.robot_yaw_ s.door_proximity_distance_ door

/-- Door `i` passes the test `p` and no door of lower index does. -/
def FirstMatch (p : Nat → Bool) (i : Nat) : Prop :=
  p i = true ∧ ∀ j, j < i → p j = false

/-- Some door of index below `n` passes the test `p`. -/
def anyBelow (p : Nat → Bool) : Nat → Bool
  | 0 => false
  | n + 1 => anyBelow p n || p n

/-- The atom of the location of the robot. -/
def atAtom (s : Navigator) : PlannerAtom :=
  ⟨"at", [s.getLocationString (s.getLocationIdx ⟨s.robot_x_, s.robot_y_⟩)]⟩

/-- The atom `name(door)` when `positive`, `-name(door)` otherwise. -/
def doorAtom (s : Navigator) (name : String) (positive : Bool) (door : Nat) : PlannerAtom :=
  ⟨if positive then name else "-" ++ name, [s.getDoorString door]⟩

/-- First match wins: the two atoms of each of the doors `0 .. n - 1`. -/
def doorAtoms (s : Navigator) : Nat → List PlannerAtom
  | 0 => []
  | n + 1 => doorAtoms s n ++
      [doorAtom s "facing" (!anyBelow (facingTest s) n && facingTest s n) n,
       doorAtom s "beside" (!anyBelow (besideTest s) n && besideTest s n) n]

/-- The atom is an `open` or a `-open` atom. -/
def isOpenAtom (a : PlannerAtom) : Bool :=
  a.name = "open" || a.name = "-open"

/-- The text `pat` occurs in the message `msg`, letter for letter. -/
def containsText (msg pat : String) : Prop :=
  ∃ before after : List Char, before ++ pat.data ++ after = msg.data

/-- The poll at tick `t` observes a preemption request or a shutdown:
`isPreemptRequested() || !ros::ok()`. -/
def stopObserved (env : Env) (t : Nat) : Bool :=
  env.isPreemptRequested t || !env.ok t

/-- Poll number `k` (counted from zero, the first one at tick `now`) is the
first to report the goal complete, and no poll up to it observes a preemption
request or a shutdown. -/
def CompletesAt (env : Env) (now k : Nat) : Prop :=
  env.waitForResult (now + k) = true ∧
  (∀ j, j ≤ k → stopObserved env (now + j) = false) ∧
  (∀ j, j < k → env.waitForResult (now + j) = false)

/-- Poll number `k` is the first to observe a preemption request or a
shutdown, and no poll before it reports the goal complete. -/
def InterruptedAt (env : Env) (now k : Nat) : Prop :=
  stopObserved env (now + k) = true ∧
  (∀ j, j < k → stopObserved env (now + j) = false ∧ env.waitForResult (now + j) = false)

/-! ## Concrete states -/

/-- A knowledge base with `n` doors named `door0`, `door1`, ... of which the
robot faces the ones `facing` holds of; `door1` is the one name that resolves. -/
def sampleNavigator (n : Nat) (facing beside : Nat → Bool) (level : String)
    (available : Bool) : Navigator where
  NO_DOOR_IDX := 18446744073709551615
  global_frame_id_ := "map"
  getLocationIdx := fun _ => 0
  getLocationString := fun _ => "l0"
  getNumDoors := n
  getDoorString := fun i => if i = 0 then "door0" else if i = 1 then "door1" else "door2"
  getDoorIdx := fun name => if name = "door1" then 1 else 18446744073709551615
  resolveDoor := fun name => if name = "door1" then 1 else 18446744073709551615
  isRobotFacingDoor := fun _ _ _ i => facing i
  isRobotBesideDoor := fun _ _ _ i => beside i
  isDoorOpen := fun _ => true
  getApproachPoint := fun _ _ => some (⟨1, 2⟩, 0)
  getThroughDoorPoint := fun _ _ => some (⟨3, 4⟩, 0)
  object_approach_map_ := fun name =>
    if name = "obj1" then some ⟨⟨5, 6, 0⟩, ⟨0, 0, 0, 1⟩⟩ else none
  robot_x_ := 0
  robot_y_ := 0
  robot_yaw_ := 0
  current_level_id_ := level
  door_proximity_distance_ := 2
  change_level_client_available_ := available
  level_to_objects_map_ := fun floor =>
    if floor = "floorB" then
      some (fun loc => if loc = "startLoc" then some ⟨⟨7, 8, 0⟩, ⟨0, 0, 0, 1⟩⟩ else none)
    else none

/-- An environment with the navigator fields `nav`, in which a preemption is
requested from tick `preemptFrom` on if at all, the motion client reports its goal
complete from tick `completeFrom` on with terminal state `state`, and the
level service answers `response`. -/
def sampleEnv (nav : Nat → Navigator) (preemptFrom : Option Nat) (completeFrom : Nat)
    (state : SimpleClientGoalState) (response : Option ChangeCurrentLevelResponse) : Env where
  nav := nav
  isPreemptRequested := fun t =>
    match preemptFrom with
    | none => false
    | some p => decide (p ≤ t)
  ok := fun _ => true
  waitForResult := fun t => decide (completeFrom ≤ t)
  getState := fun _ => state
  change_level_call := fun _ _ => response
  frameIdFromLevelId := fun level => level ++ "/map"
  createQuaternionFromYaw := fun _ => ⟨0, 0, 0, 1⟩

/-- A robot on `floorA` that faces no door; the availability flag is clear. -/
def navigatorOnFloorA : Navigator :=
  sampleNavigator 2 (fun _ => false) (fun _ => false) "floorA" false

/-- A robot on `floorB` whose availability flag is set. -/
def navigatorOnFloorB : Navigator :=
  sampleNavigator 2 (fun _ => false) (fun _ => false) "floorB" true

/-- A robot on `floorA` whose availability flag is set. -/
def navigatorFlagSet : Navigator :=
  sampleNavigator 2 (fun _ => false) (fun _ => false) "floorA" true

/-- The fields of a robot that starts on `floorA`, flag clear, and is found on
`floorB` from tick `arrival` on. -/
def navigatorMoving (arrival : Nat) (t : Nat) : Navigator :=
  sampleNavigator 2 (fun _ => false) (fun _ => false)
    (if t < arrival then "floorA" else "floorB") false

/-- The request `changeFloor` builds at tick 0 for `floorB` and `startLoc` in
the sample registry. -/
def sampleRequest : ChangeCurrentLevelRequest :=
  ⟨"floorB", true, 0, "floorB/map", ⟨⟨7, 8, 0⟩, ⟨0, 0, 0, 1⟩⟩, initialCovariance⟩

/-- A robot with two doors in reach, both passing the facing test. -/
def navigatorFacingDoors : Navigator :=
  sampleNavigator 2 (fun _ => true) (fun _ => false) "floorA" false

/-- A goal pose for the motion client. -/
def samplePose : PoseStamped :=
  ⟨0, "map", ⟨⟨5, 6, 0⟩, ⟨0, 0, 0, 1⟩⟩⟩

instance (msg pat : String) : Decidable (containsText msg pat) :=
  inferInstanceAs (Decidable (pat.data <:+: msg.data))

/-! ## Properties -/

theorem anyBelow_eq_true (p : Nat → Bool) (n : Nat) :
    anyBelow p n = true ↔ ∃ j, j < n ∧ p j = true := by
  induction n with
  | zero => simp [anyBelow]
  | succ n ih =>
    simp only [anyBelow, Bool.or_eq_true, ih]
    constructor
    · rintro (⟨j, hj, hp⟩ | hp)
      · exact ⟨j, Nat.lt_succ_of_lt hj, hp⟩
      · exact ⟨n, Nat.lt_succ_self n, hp⟩
    · rintro ⟨j, hj, hp⟩
      rcases Nat.lt_succ_iff_lt_or_eq.mp hj with h | h
      · exact Or.inl ⟨j, h, hp⟩
      · subst h; exact Or.inr hp

theorem firstMatch_iff (p : Nat → Bool) (i : Nat) :
    (!anyBelow p i && p i) = true ↔ FirstMatch p i := by
  unfold FirstMatch
  rw [Bool.and_eq_true, Bool.not_eq_true', and_comm]
  apply and_congr_right
  intro _
  constructor
  · intro h j hj
    by_contra hp
    have : anyBelow p i = true := (anyBelow_eq_true p i).mpr ⟨j, hj, by simpa using hp⟩
    simp [h] at this
  · intro h
    by_contra hp
    obtain ⟨j, hj, hpj⟩ := (anyBelow_eq_true p i).mp (by simpa using hp)
    simp [h j hj] at hpj

theorem senseStateDoor_unfiltered (s : Navigator) (o : List PlannerAtom) (ff fb : Bool)
    (door : Nat) :
    senseStateDoor s s.NO_DOOR_IDX ⟨o, ff, fb, s.NO_DOOR_IDX⟩ door =
      ⟨o ++ [doorAtom s "facing" (!ff && facingTest s door) door,
             doorAtom s "beside" (!fb && besideTest s door) door],
        ff || facingTest s door, fb || besideTest s door, s.NO_DOOR_IDX⟩ := by
  have h1 : "-" ++ "facing" = "-facing" := by decide
  have h2 : "-" ++ "beside" = "-beside" := by decide
  unfold senseStateDoor doorAtom
  simp only [ne_eq, not_true_eq_false, false_and, if_false, h1, h2]
  cases ff <;> cases fb <;> cases hf : facingTest s door <;> cases hb : besideTest s door <;>
    simp [facingTest, besideTest] at hf hb <;> simp [hf, hb]

theorem senseStateLoop_unfiltered (s : Navigator) (o : List PlannerAtom) (n : Nat) :
    (List.range n).foldl (senseStateDoor s s.NO_DOOR_IDX) ⟨o, false, false, s.NO_DOOR_IDX⟩ =
      ⟨o ++ doorAtoms s n, anyBelow (facingTest s) n, anyBelow (besideTest s) n,
        s.NO_DOOR_IDX⟩ := by
  induction n with
  | zero => simp [doorAtoms, anyBelow]
  | succ n ih =>
    rw [List.range_succ, List.foldl_append, ih]
    simp only [List.foldl_cons, List.foldl_nil, senseStateDoor_unfiltered, doorAtoms, anyBelow,
      List.append_assoc]

theorem senseStateAll_eq (s : Navigator) (o : List PlannerAtom) :
    senseStateAll s o = o ++ atAtom s :: doorAtoms s s.getNumDoors := by
  unfold senseStateAll senseState senseStateLoop
  simp only [senseStateLoop_unfiltered]
  simp [atAtom]
theorem doorAtoms_length (s : Navigator) (n : Nat) : (doorAtoms s n).length = 2 * n := by
  induction n with
  | zero => rfl
  | succ n ih => simp [doorAtoms, ih]; omega

theorem doorAtoms_get (s : Navigator) (n i : Nat) (h : i < n) :
    (doorAtoms s n)[2 * i]? =
        some (doorAtom s "facing" (!anyBelow (facingTest s) i && facingTest s i) i) ∧
      (doorAtoms s n)[2 * i + 1]? =
        some (doorAtom s "beside" (!anyBelow (besideTest s) i && besideTest s i) i) := by
  induction n with
  | zero => omega
  | succ n ih =>
    have hlen := doorAtoms_length s n
    rcases Nat.lt_succ_iff_lt_or_eq.mp h with hlt | heq
    · obtain ⟨h1, h2⟩ := ih hlt
      constructor
      · rw [doorAtoms, List.getElem?_append_left (by omega)]; exact h1
      · rw [doorAtoms, List.getElem?_append_left (by omega)]; exact h2
    · subst heq
      constructor
      · rw [doorAtoms, List.getElem?_append_right (by omega)]
        simp [hlen]
      · rw [doorAtoms, List.getElem?_append_right (by omega)]
        have : 2 * i + 1 - (doorAtoms s i).length = 1 := by omega
        simp [this]

theorem doorAtoms_count_facing (s : Navigator) (n : Nat) :
    (doorAtoms s n).countP (fun a => decide (a.name = "facing")) =
      if anyBelow (facingTest s) n then 1 else 0 := by
  have h1 : ("-" ++ "facing" = "facing") = False := by decide
  have h2 : ("beside" = "facing") = False := by decide
  have h3 : ("-" ++ "beside" = "facing") = False := by decide
  induction n with
  | zero => rfl
  | succ n ih =>
    rw [doorAtoms, List.countP_append, ih]
    cases ha : anyBelow (facingTest s) n <;> cases hf : facingTest s n <;>
      cases hb : (!anyBelow (besideTest s) n && besideTest s n) <;>
      simp [anyBelow, doorAtom, List.countP_cons, ha, hf, h1, h2, h3]

theorem doorAtoms_count_beside (s : Navigator) (n : Nat) :
    (doorAtoms s n).countP (fun a => decide (a.name = "beside")) =
      if anyBelow (besideTest s) n then 1 else 0 := by
  have h1 : ("-" ++ "beside" = "beside") = False := by decide
  have h2 : ("facing" = "beside") = False := by decide
  have h3 : ("-" ++ "facing" = "beside") = False := by decide
  induction n with
  | zero => rfl
  | succ n ih =>
    rw [doorAtoms, List.countP_append, ih]
    cases ha : anyBelow (besideTest s) n <;> cases hf : besideTest s n <;>
      cases hb : (!anyBelow (facingTest s) n && facingTest s n) <;>
      simp [anyBelow, doorAtom, List.countP_cons, ha, hf, h1, h2, h3]

theorem doorAtom_pos_iff (s : Navigator) (name : String) (b : Bool) (i : Nat)
    (hne : "-" ++ name ≠ name) :
    (some (doorAtom s name b i) = some ⟨name, [s.getDoorString i]⟩ ↔ b = true) ∧
    (some (doorAtom s name b i) = some ⟨"-" ++ name, [s.getDoorString i]⟩ ↔ ¬ b = true) := by
  cases b <;> simp [doorAtom, hne, Ne.symm hne]

/-- C2. An unfiltered `senseState` over `n` doors appends the `at` atom and then
two atoms per door, in door order: door `i` gets `facing` exactly when it
passes the facing test and no door of lower index does, `-facing` otherwise,
and likewise `beside` or `-beside`; so each door has exactly one atom of each
pair, and at most one door is `facing` and at most one `beside`. -/
theorem senseState_unfiltered_first_match (s : Navigator) (obs : List PlannerAtom) :
    ∃ atoms : List PlannerAtom,
      senseState s obs s.NO_DOOR_IDX = obs ++ atAtom s :: atoms ∧
      atoms.length = 2 * s.getNumDoors ∧
      (∀ i, i < s.getNumDoors →
        (atoms[2 * i]? = some ⟨"facing", [s.getDoorString i]⟩ ↔
          FirstMatch (facingTest s) i) ∧
        (atoms[2 * i]? = some ⟨"-facing", [s.getDoorString i]⟩ ↔
          ¬ FirstMatch (facingTest s) i) ∧
        (atoms[2 * i + 1]? = some ⟨"beside", [s.getDoorString i]⟩ ↔
          FirstMatch (besideTest s) i) ∧
        (atoms[2 * i + 1]? = some ⟨"-beside", [s.getDoorString i]⟩ ↔
          ¬ FirstMatch (besideTest s) i)) ∧
      atoms.countP (fun a => decide (a.name = "facing")) ≤ 1 ∧
      atoms.countP (fun a => decide (a.name = "beside")) ≤ 1 := by
  refine ⟨doorAtoms s s.getNumDoors, senseStateAll_eq s obs, doorAtoms_length s _, ?_, ?_, ?_⟩
  · intro i hi
    obtain ⟨hf, hb⟩ := doorAtoms_get s s.getNumDoors i hi
    have nf : "-" ++ "facing" ≠ "facing" := by decide
    have nb : "-" ++ "beside" ≠ "beside" := by decide
    have ef : "-" ++ "facing" = "-facing" := by decide
    have eb : "-" ++ "beside" = "-beside" := by decide
    have pf := doorAtom_pos_iff s "facing" (!anyBelow (facingTest s) i && facingTest s i) i nf
    have pb := doorAtom_pos_iff s "beside" (!anyBelow (besideTest s) i && besideTest s i) i nb
    rw [firstMatch_iff, ef] at pf
    rw [firstMatch_iff, eb] at pb
    rw [hf, hb]
    exact ⟨pf.1, pf.2, pb.1, pb.2⟩
  · rw [doorAtoms_count_facing]; split <;> omega
  · rw [doorAtoms_count_beside]; split <;> omega

theorem navigationLoop_completes (env : Env) (k : Nat) :
    ∀ fuel now, k < fuel → CompletesAt env now k →
      navigationLoop env fuel now =
        Except.ok ⟨true, now + k + 1, List.replicate (k + 1) Action.waitForResult⟩ := by
  induction k with
  | zero =>
    intro fuel now hf ⟨hw, hs, _⟩
    obtain ⟨f, rfl⟩ : ∃ f, fuel = f + 1 := ⟨fuel - 1, by omega⟩
    have hs0 := hs 0 (Nat.le_refl 0)
    simp only [stopObserved, Nat.add_zero] at hs0 hw
    simp [navigationLoop, hs0, hw]
  | succ k ih =>
    intro fuel now hf ⟨hw, hs, hn⟩
    obtain ⟨f, rfl⟩ : ∃ f, fuel = f + 1 := ⟨fuel - 1, by omega⟩
    have hs0 := hs 0 (Nat.zero_le _)
    have hw0 := hn 0 (Nat.succ_pos k)
    simp only [stopObserved, Nat.add_zero] at hs0 hw0
    have hrec : CompletesAt env (now + 1) k := by
      refine ⟨?_, ?_, ?_⟩
      · rw [show now + 1 + k = now + (k + 1) by omega]; exact hw
      · intro j hj
        rw [show now + 1 + j = now + (j + 1) by omega]; exact hs (j + 1) (by omega)
      · intro j hj
        rw [show now + 1 + j = now + (j + 1) by omega]; exact hn (j + 1) (by omega)
    have := ih f (now + 1) (by omega) hrec
    simp [navigationLoop, hs0, hw0, this, List.replicate_succ]
    omega

theorem navigationLoop_interrupted (env : Env) (k : Nat) :
    ∀ fuel now, k < fuel → InterruptedAt env now k →
      navigationLoop env fuel now =
        Except.ok ⟨false, now + k,
          List.replicate k Action.waitForResult ++ [Action.cancelGoal]⟩ := by
  induction k with
  | zero =>
    intro fuel now hf ⟨hs, _⟩
    obtain ⟨f, rfl⟩ : ∃ f, fuel = f + 1 := ⟨fuel - 1, by omega⟩
    simp only [stopObserved, Nat.add_zero] at hs
    simp [navigationLoop, hs]
  | succ k ih =>
    intro fuel now hf ⟨hs, hn⟩
    obtain ⟨f, rfl⟩ : ∃ f, fuel = f + 1 := ⟨fuel - 1, by omega⟩
    obtain ⟨hs0, hw0⟩ := hn 0 (Nat.succ_pos k)
    simp only [stopObserved, Nat.add_zero] at hs0 hw0
    have hrec : InterruptedAt env (now + 1) k := by
      refine ⟨?_, ?_⟩
      · rw [show now + 1 + k = now + (k + 1) by omega]; exact hs
      · intro j hj
        rw [show now + 1 + j = now + (j + 1) by omega]; exact hn (j + 1) (by omega)
    have := ih f (now + 1) (by omega) hrec
    simp [navigationLoop, hs0, hw0, this, List.replicate_succ]
    omega

theorem navigationLoop_ok (env : Env) (fuel : Nat) :
    ∀ now r, navigationLoop env fuel now = Except.ok r →
      (r.val = true ∧ ∃ k, k < fuel ∧ CompletesAt env now k ∧ r.now = now + k + 1) ∨
      (r.val = false ∧ ∃ k, k < fuel ∧ InterruptedAt env now k ∧ r.now = now + k) := by
  induction fuel with
  | zero => intro now r h; simp [navigationLoop] at h
  | succ f ih =>
    intro now r h
    rw [navigationLoop] at h
    by_cases hs : (env.isPreemptRequested now || !env.ok now) = true
    · rw [if_pos hs] at h
      injection h with h
      subst h
      refine Or.inr ⟨rfl, 0, Nat.succ_pos f, ⟨by simpa [stopObserved] using hs, ?_⟩, rfl⟩
      intro j hj; omega
    · rw [if_neg hs] at h
      have hs0 : stopObserved env now = false := by simpa [stopObserved] using hs
      by_cases hw : env.waitForResult now = true
      · rw [if_pos hw] at h
        injection h with h
        subst h
        refine Or.inl ⟨rfl, 0, Nat.succ_pos f, ⟨by simpa using hw, ?_, ?_⟩, rfl⟩
        · intro j hj
          obtain rfl : j = 0 := by omega
          simpa using hs0
        · intro j hj; omega
      · rw [if_neg hw] at h
        have hw0 : env.waitForResult now = false := by simpa using hw
        cases hrec : navigationLoop env f (now + 1) with
        | error e => rw [hrec] at h; simp at h
        | ok r1 =>
          rw [hrec] at h
          injection h with h
          subst h
          rcases ih (now + 1) r1 hrec with ⟨hv, k, hk, hc, hn⟩ | ⟨hv, k, hk, hc, hn⟩
          · refine Or.inl ⟨hv, k + 1, by omega, ⟨?_, ?_, ?_⟩, by simp only [hn]; omega⟩
            · rw [show now + (k + 1) = now + 1 + k by omega]; exact hc.1
            · intro j hj
              rcases Nat.eq_zero_or_pos j with rfl | hpos
              · simpa using hs0
              · obtain ⟨i, rfl⟩ : ∃ i, j = i + 1 := ⟨j - 1, by omega⟩
                rw [show now + (i + 1) = now + 1 + i by omega]; exact hc.2.1 i (by omega)
            · intro j hj
              rcases Nat.eq_zero_or_pos j with rfl | hpos
              · simpa using hw0
              · obtain ⟨i, rfl⟩ : ∃ i, j = i + 1 := ⟨j - 1, by omega⟩
                rw [show now + (i + 1) = now + 1 + i by omega]; exact hc.2.2 i (by omega)
          · refine Or.inr ⟨hv, k + 1, by omega, ⟨?_, ?_⟩, by simp only [hn]; omega⟩
            · rw [show now + (k + 1) = now + 1 + k by omega]; exact hc.1
            · intro j hj
              rcases Nat.eq_zero_or_pos j with rfl | hpos
              · exact ⟨by simpa using hs0, by simpa using hw0⟩
              · obtain ⟨i, rfl⟩ : ∃ i, j = i + 1 := ⟨j - 1, by omega⟩
                rw [show now + (i + 1) = now + 1 + i by omega]; exact hc.2 i (by omega)
theorem completesAt_unique (env : Env) (now j k : Nat)
    (hj : CompletesAt env now j) (hk : CompletesAt env now k) : j = k := by
  rcases Nat.lt_trichotomy j k with h | h | h
  · have := hk.2.2 j h
    rw [hj.1] at this; cases this
  · exact h
  · have := hj.2.2 k h
    rw [hk.1] at this; cases this

theorem completesAt_not_interruptedAt (env : Env) (now j k : Nat)
    (hj : CompletesAt env now j) (hk : InterruptedAt env now k) : False := by
  rcases Nat.lt_or_ge j k with h | h
  · have := (hk.2 j h).2
    rw [hj.1] at this; cases this
  · have := hj.2.1 k h
    rw [hk.1] at this; cases this

theorem executeNavigationGoal_ok (env : Env) (fuel now : Nat) (pose : PoseStamped)
    (r : Ret Bool) (h : executeNavigationGoal env fuel now pose = Except.ok r) :
    (∃ k, k < fuel ∧ CompletesAt env now k ∧ r.now = now + k + 1 ∧
      r.val = decide (env.getState (now + k + 1) = SimpleClientGoalState.SUCCEEDED)) ∨
    (∃ k, k < fuel ∧ InterruptedAt env now k ∧ r.now = now + k ∧ r.val = false) := by
  unfold executeNavigationGoal at h
  cases hl : navigationLoop env fuel now with
  | error e => rw [hl] at h; simp at h
  | ok l =>
    rw [hl] at h
    rcases navigationLoop_ok env fuel now l hl with ⟨hv, k, hk, hc, hn⟩ | ⟨hv, k, hk, hc, hn⟩
    · simp only [hv, if_true] at h
      injection h with h
      subst h
      exact Or.inl ⟨k, hk, hc, hn, by simp [hn]⟩
    · simp only [hv] at h
      injection h with h
      subst h
      exact Or.inr ⟨k, hk, hc, hn, rfl⟩

/-- C8. With the motion client and the preemption and shutdown signals as
per-poll oracles: if poll `k` is the first to report the goal complete and no
poll up to it observes a preemption request or a shutdown,
`executeNavigationGoal` returns whether the terminal state read then is
`SUCCEEDED`, after `k + 1` polls and no cancellation; if poll `k` is the first
to observe a preemption request or a shutdown before completion, it returns
`false` after `k` polls and one cancellation, which is its last action; and
whenever it returns, it returns `true` exactly when some poll completes that
way and the terminal state is `SUCCEEDED`. -/
theorem executeNavigationGoal_polls (env : Env) (fuel now k : Nat) (pose : PoseStamped)
    (hfuel : k < fuel) :
    (CompletesAt env now k →
      executeNavigationGoal env fuel now pose =
        Except.ok ⟨decide (env.getState (now + k + 1) = SimpleClientGoalState.SUCCEEDED),
          now + k + 1, Action.sendGoal pose :: List.replicate (k + 1) Action.waitForResult⟩) ∧
    (InterruptedAt env now k →
      executeNavigationGoal env fuel now pose =
        Except.ok ⟨false, now + k,
          Action.sendGoal pose :: (List.replicate k Action.waitForResult ++ [Action.cancelGoal])⟩) ∧
    (∀ fuel1 r, executeNavigationGoal env fuel1 now pose = Except.ok r →
      (r.val = true ↔
        ∃ j, CompletesAt env now j ∧
          env.getState (now + j + 1) = SimpleClientGoalState.SUCCEEDED)) := by
  refine ⟨?_, ?_, ?_⟩
  · intro hc
    simp [executeNavigationGoal, navigationLoop_completes env k fuel now hfuel hc]
  · intro hi
    simp [executeNavigationGoal, navigationLoop_interrupted env k fuel now hfuel hi]
  · intro fuel1 r h
    rcases executeNavigationGoal_ok env fuel1 now pose r h with
      ⟨j, _, hc, _, hv⟩ | ⟨j, _, hi, _, hv⟩
    · constructor
      · intro ht
        exact ⟨j, hc, by simpa [ht] using hv.symm⟩
      · rintro ⟨i, hci, hs⟩
        obtain rfl := completesAt_unique env now i j hci hc
        simp [hv, hs]
    · constructor
      · intro ht; rw [hv] at ht; cases ht
      · rintro ⟨i, hci, _⟩
        exact (completesAt_not_interruptedAt env now i j hci hi).elim

/-- A run that completes at its third poll and a run preempted at its second. -/
theorem executeNavigationGoal_polls_witness :
    executeNavigationGoal (sampleEnv (fun _ => navigatorOnFloorA) none 2
        SimpleClientGoalState.SUCCEEDED none) 3 0 samplePose =
      Except.ok ⟨true, 3, [Action.sendGoal samplePose, Action.waitForResult,
        Action.waitForResult, Action.waitForResult]⟩ ∧
    executeNavigationGoal (sampleEnv (fun _ => navigatorOnFloorA) (some 1) 5
        SimpleClientGoalState.SUCCEEDED none) 2 0 samplePose =
      Except.ok ⟨false, 1, [Action.sendGoal samplePose, Action.waitForResult,
        Action.cancelGoal]⟩ :=
  ⟨(executeNavigationGoal_polls _ 3 0 2 samplePose (by decide)).1
      ⟨rfl, fun j hj => by interval_cases j <;> rfl, fun j hj => by interval_cases j <;> rfl⟩,
   (executeNavigationGoal_polls _ 2 0 1 samplePose (by decide)).2.1
      ⟨rfl, fun j hj => by interval_cases j; exact ⟨rfl, rfl⟩⟩⟩

theorem doorAtoms_names (s : Navigator) (n : Nat) (a : PlannerAtom) (h : a ∈ doorAtoms s n) :
    a.name = "facing" ∨ a.name = "-facing" ∨ a.name = "beside" ∨ a.name = "-beside" := by
  have ef : "-" ++ "facing" = "-facing" := by decide
  have eb : "-" ++ "beside" = "-beside" := by decide
  induction n with
  | zero => simp [doorAtoms] at h
  | succ n ih =>
    simp only [doorAtoms, List.mem_append, List.mem_cons, List.mem_singleton,
      List.not_mem_nil, or_false] at h
    rcases h with h | h | h
    · exact ih h
    · subst h
      unfold doorAtom
      split
      · exact Or.inl rfl
      · exact Or.inr (Or.inl ef)
    · subst h
      unfold doorAtom
      split
      · exact Or.inr (Or.inr (Or.inl rfl))
      · exact Or.inr (Or.inr (Or.inr eb))

theorem senseStateAll_names (s : Navigator) (a : PlannerAtom) (h : a ∈ senseStateAll s []) :
    a.name = "at" ∨ a.name = "facing" ∨ a.name = "-facing" ∨ a.name = "beside" ∨
      a.name = "-beside" := by
  rw [senseStateAll_eq, List.nil_append, List.mem_cons] at h
  rcases h with h | h
  · subst h; exact Or.inl rfl
  · exact Or.inr (doorAtoms_names s _ a h)

theorem senseStateLoop_filtered (s : Navigator) (d : Nat) (hd : d ≠ s.NO_DOOR_IDX)
    (v : SenseVars) (n : Nat) :
    (List.range n).foldl (senseStateDoor s d) v =
      if d < n then senseStateDoor s d v d else v := by
  induction n with
  | zero => simp
  | succ n ih =>
    rw [List.range_succ, List.foldl_append, ih]
    simp only [List.foldl_cons, List.foldl_nil]
    by_cases hlt : d < n
    · have hne : n ≠ d := by omega
      rw [if_pos hlt, if_pos (by omega : d < n + 1)]
      generalize senseStateDoor s d v d = w
      simp [senseStateDoor, hd, hne]
    · rw [if_neg hlt]
      by_cases heq : d = n
      · subst heq; simp
      · rw [if_neg (by omega : ¬ d < n + 1)]
        have hne : n ≠ d := fun h => heq h.symm
        simp [senseStateDoor, hd, hne]

theorem senseState_filtered (s : Navigator) (obs : List PlannerAtom) (d : Nat)
    (hd : d ≠ s.NO_DOOR_IDX) (hn : d < s.getNumDoors) :
    senseState s obs d =
      obs ++ [atAtom s, doorAtom s "facing" (facingTest s d) d,
        doorAtom s "beside" (besideTest s d) d] ++
      (if facingTest s d then
        [⟨if s.isDoorOpen d then "open" else "-open", [s.getDoorString d]⟩]
      else []) := by
  have ef : "-" ++ "facing" = "-facing" := by decide
  have eb : "-" ++ "beside" = "-beside" := by decide
  simp only [senseState, senseStateLoop, senseStateLoop_filtered s d hd, hn, if_true]
  unfold senseStateDoor doorAtom atAtom
  cases hf : facingTest s d <;> cases hb : besideTest s d <;>
    simp only [facingTest, besideTest] at hf hb <;>
    simp [hd, hf, hb, ef, eb] <;> split <;> simp

/-- An unfiltered sensing into an empty vector has no `open` or `-open` atom,
whatever the doors and the pose. -/
theorem senseStateAll_no_open (s : Navigator) :
    (senseStateAll s []).any isOpenAtom = false := by
  rw [List.any_eq_false]
  intro a ha
  have hn := senseStateAll_names s a ha
  have h1 : ("at" = "open") = False := by decide
  have h2 : ("at" = "-open") = False := by decide
  have h3 : ("facing" = "open") = False := by decide
  have h4 : ("facing" = "-open") = False := by decide
  have h5 : ("-facing" = "open") = False := by decide
  have h6 : ("-facing" = "-open") = False := by decide
  have h7 : ("beside" = "open") = False := by decide
  have h8 : ("beside" = "-open") = False := by decide
  have h9 : ("-beside" = "open") = False := by decide
  have h10 : ("-beside" = "-open") = False := by decide
  rcases hn with h | h | h | h | h <;>
    simp [isOpenAtom, h, h1, h2, h3, h4, h5, h6, h7, h8, h9, h10]

/-- C1. The code at the failing input: with two doors that both pass the facing
test, an unfiltered `senseState` marks exactly one door, `door0`, as `facing`
and emits neither `open` nor `-open`, while the same sensing filtered to
`door1` does emit `open(door1)`. -/
theorem senseState_unfiltered_facing_without_open :
    senseState navigatorFacingDoors [] navigatorFacingDoors.NO_DOOR_IDX =
      [⟨"at", ["l0"]⟩, ⟨"facing", ["door0"]⟩, ⟨"-beside", ["door0"]⟩,
        ⟨"-facing", ["door1"]⟩, ⟨"-beside", ["door1"]⟩] ∧
    (senseState navigatorFacingDoors [] navigatorFacingDoors.NO_DOOR_IDX).countP
      (fun a => decide (a.name = "facing")) = 1 ∧
    (senseState navigatorFacingDoors [] navigatorFacingDoors.NO_DOOR_IDX).any isOpenAtom =
      false ∧
    senseState navigatorFacingDoors [] 1 =
      [⟨"at", ["l0"]⟩, ⟨"facing", ["door1"]⟩, ⟨"-beside", ["door1"]⟩,
        ⟨"open", ["door1"]⟩] := by
  decide

theorem executeBranch_goto (env : Env) (fuel now : Nat) (a : String) (rest : List String) :
    executeBranch env fuel now ⟨"goto", a :: rest⟩ = approachObject env fuel now a [] := by
  have h1 : ("goto" = "approach") = False := by decide
  have h2 : ("goto" = "gothrough") = False := by decide
  have h3 : ("goto" = "sensedoor") = False := by decide
  simp only [executeBranch, value0, h1, h2, h3, if_false, if_true]

theorem executeBranch_changefloor (env : Env) (fuel now : Nat) (a : String)
    (rest : List String) :
    executeBranch env fuel now ⟨"changefloor", a :: rest⟩ = changeFloor env fuel now a a [] := by
  have h1 : ("changefloor" = "approach") = False := by decide
  have h2 : ("changefloor" = "gothrough") = False := by decide
  have h3 : ("changefloor" = "sensedoor") = False := by decide
  have h4 : ("changefloor" = "goto") = False := by decide
  simp only [executeBranch, value0, h1, h2, h3, h4, if_false, if_true]

theorem executeBranch_approach (env : Env) (fuel now : Nat) (a : String) (rest : List String) :
    executeBranch env fuel now ⟨"approach", a :: rest⟩ = approachDoor env fuel now a [] false := by
  simp only [executeBranch, value0, if_true]

theorem executeBranch_gothrough (env : Env) (fuel now : Nat) (a : String)
    (rest : List String) :
    executeBranch env fuel now ⟨"gothrough", a :: rest⟩ = approachDoor env fuel now a [] true := by
  have h1 : ("gothrough" = "approach") = False := by decide
  simp only [executeBranch, value0, h1, if_false, if_true]

theorem containsText_append (before pat after : String) :
    containsText (before ++ pat ++ after) pat :=
  ⟨before.data, after.data, by simp [String.data_append]⟩

/-- C5, amended. For every door name that `getDoorIdx` does not resolve,
`approach` and `gothrough` dispatched through `execute` return
`success = false`, the message `Could not resolve argument: ` followed by the
name (so a message containing `Could not resolve`, with a capital), no atom,
and take no action: no goal is sent to the motion subsystem. -/
theorem execute_unresolved_door (env : Env) (fuel now : Nat) (name door_name : String)
    (rest : List String) (hname : name = "approach" ∨ name = "gothrough")
    (hdoor : (env.nav now).getDoorIdx door_name = (env.nav now).NO_DOOR_IDX) :
    execute env fuel now ⟨name, door_name :: rest⟩ =
      Except.ok ⟨⟨false, [], "Could not resolve argument: " ++ door_name⟩,
        if env.isPreemptRequested now then TerminalState.Preempted else TerminalState.Aborted,
        now, []⟩ ∧
    containsText ("Could not resolve argument: " ++ door_name) "Could not resolve" := by
  constructor
  · rcases hname with rfl | rfl
    · simp only [execute, executeBranch_approach, approachDoor, hdoor, if_true, executeReport]
      cases env.isPreemptRequested now <;> simp
    · simp only [execute, executeBranch_gothrough, approachDoor, hdoor, if_true, executeReport]
      cases env.isPreemptRequested now <;> simp
  · have := containsText_append "" "Could not resolve" (" argument: " ++ door_name)
    have e : "" ++ "Could not resolve" ++ (" argument: " ++ door_name) =
        "Could not resolve argument: " ++ door_name := by
      rw [← String.append_assoc]; rfl
    rwa [e] at this

/-- A `gothrough` of the unknown door `doorX`. -/
theorem execute_unresolved_door_witness :
    execute (sampleEnv (fun _ => navigatorOnFloorA) none 2 SimpleClientGoalState.SUCCEEDED none)
        1 0 ⟨"gothrough", ["doorX"]⟩ =
      Except.ok ⟨⟨false, [], "Could not resolve argument: doorX"⟩, TerminalState.Aborted,
        0, []⟩ :=
  (execute_unresolved_door _ 1 0 "gothrough" "doorX" [] (Or.inr rfl) rfl).1

/-- C5, counterexample. The door name `doorX` does not resolve and the message
of `approach` for it is `Could not resolve argument: doorX`, in which the text
`could not resolve` does not occur. -/
theorem execute_lowercase_unresolved_door :
    navigatorOnFloorA.getDoorIdx "doorX" = navigatorOnFloorA.NO_DOOR_IDX ∧
    execute (sampleEnv (fun _ => navigatorOnFloorA) none 2 SimpleClientGoalState.SUCCEEDED none)
        1 0 ⟨"approach", ["doorX"]⟩ =
      Except.ok ⟨⟨false, [], "Could not resolve argument: doorX"⟩, TerminalState.Aborted,
        0, []⟩ ∧
    ¬ containsText "Could not resolve argument: doorX" "could not resolve" :=
  ⟨rfl, rfl, by decide⟩
theorem senseStateAll_not_closeto (s : Navigator) (args : List String) :
    (⟨"closeto", args⟩ : PlannerAtom) ∉ senseStateAll s [] ∧
    (⟨"-closeto", args⟩ : PlannerAtom) ∉ senseStateAll s [] := by
  constructor
  · intro h
    have := senseStateAll_names s _ h
    simp only at this
    revert this
    decide
  · intro h
    have := senseStateAll_names s _ h
    simp only at this
    revert this
    decide

/-- C6. The command `goto` is `approachObject` of its first argument. For an
object of the approach map, whenever the motion to its approach pose returns,
`approachObject` returns the success flag of the motion, and its atoms are a
full unfiltered state sensing followed by one last atom: `closeto(obj)` when
the motion succeeded, `-closeto(obj)` when it did not; the other of the two
atoms is not in the list. For an object that is not in the map it returns
`success = false`, the message `<object> does not exist.`, no atom, and takes
no action. -/
theorem approachObject_closeto (env : Env) (fuel now : Nat) (object_name : String)
    (obs : List PlannerAtom) (rest : List String) :
    executeBranch env fuel now ⟨"goto", object_name :: rest⟩ =
      approachObject env fuel now object_name [] ∧
    (∀ object_pose m,
      (env.nav now).object_approach_map_ object_name = some object_pose →
      executeNavigationGoal env fuel now
        ⟨now, (env.nav now).global_frame_id_, object_pose⟩ = Except.ok m →
      ∃ r, approachObject env fuel now object_name obs = Except.ok r ∧
        r.success = m.val ∧ r.error_message = "" ∧ r.log = m.log ∧
        (m.val = true →
          r.observations = senseState (env.nav m.now) [] (env.nav m.now).NO_DOOR_IDX ++
            [⟨"closeto", [object_name]⟩] ∧
          (⟨"closeto", [object_name]⟩ : PlannerAtom) ∈ r.observations ∧
          (⟨"-closeto", [object_name]⟩ : PlannerAtom) ∉ r.observations) ∧
        (m.val = false →
          r.observations = senseState (env.nav m.now) [] (env.nav m.now).NO_DOOR_IDX ++
            [⟨"-closeto", [object_name]⟩] ∧
          (⟨"-closeto", [object_name]⟩ : PlannerAtom) ∈ r.observations ∧
          (⟨"closeto", [object_name]⟩ : PlannerAtom) ∉ r.observations)) ∧
    ((env.nav now).object_approach_map_ object_name = none →
      approachObject env fuel now object_name obs =
        Except.ok ⟨false, [], object_name ++ " does not exist.", now, []⟩) := by
  have hne1 : ("-closeto" = "closeto") = False := by decide
  have hne2 : ("closeto" = "-closeto") = False := by decide
  refine ⟨executeBranch_goto env fuel now object_name rest, ?_, ?_⟩
  · intro object_pose m hfind hmove
    have hrun : approachObject env fuel now object_name obs =
        Except.ok ⟨m.val, senseStateAll (env.nav m.now) [] ++
          [⟨if !m.val then "-closeto" else "closeto", [object_name]⟩], "", m.now + 1, m.log⟩ := by
      simp only [approachObject, hfind, hmove]
    refine ⟨_, hrun, rfl, rfl, rfl, ?_, ?_⟩
    · intro hv
      obtain ⟨_, h2⟩ := senseStateAll_not_closeto (env.nav m.now) [object_name]
      simp only [senseStateAll] at h2 ⊢
      simp [hv, h2, hne1]
    · intro hv
      obtain ⟨h1, _⟩ := senseStateAll_not_closeto (env.nav m.now) [object_name]
      simp only [senseStateAll] at h1 ⊢
      simp [hv, h1, hne2]
  · intro hfind
    simp only [approachObject, hfind]

/-- A `goto` of `obj1` whose motion completes at its third poll, and a `goto` of
an object that is not in the map. -/
theorem approachObject_closeto_witness :
    (∃ r, approachObject (sampleEnv (fun _ => navigatorOnFloorA) none 2
          SimpleClientGoalState.SUCCEEDED none) 3 0 "obj1" [] = Except.ok r ∧
        r.success = true ∧ (⟨"closeto", ["obj1"]⟩ : PlannerAtom) ∈ r.observations) ∧
    approachObject (sampleEnv (fun _ => navigatorOnFloorA) none 2
        SimpleClientGoalState.SUCCEEDED none) 3 0 "obj9" [] =
      Except.ok ⟨false, [], "obj9 does not exist.", 0, []⟩ := by
  constructor
  · obtain ⟨r, h, hs, _, _, ht, _⟩ :=
      (approachObject_closeto (sampleEnv (fun _ => navigatorOnFloorA) none 2
        SimpleClientGoalState.SUCCEEDED none) 3 0 "obj1" [] []).2.1
        ⟨⟨5, 6, 0⟩, ⟨0, 0, 0, 1⟩⟩ ⟨true, 3, _⟩ rfl rfl
    exact ⟨r, h, hs, (ht rfl).2.1⟩
  · exact (approachObject_closeto (sampleEnv (fun _ => navigatorOnFloorA) none 2
      SimpleClientGoalState.SUCCEEDED none) 3 0 "obj9" [] []).2.2 rfl
theorem executeNavigationGoal_completes (env : Env) (fuel now k : Nat) (pose : PoseStamped)
    (hfuel : k < fuel) (hc : CompletesAt env now k) :
    executeNavigationGoal env fuel now pose =
      Except.ok ⟨decide (env.getState (now + k + 1) = SimpleClientGoalState.SUCCEEDED),
        now + k + 1, Action.sendGoal pose :: List.replicate (k + 1) Action.waitForResult⟩ := by
  simp [executeNavigationGoal, navigationLoop_completes env k fuel now hfuel hc]

theorem executeNavigationGoal_interrupted (env : Env) (fuel now k : Nat) (pose : PoseStamped)
    (hfuel : k < fuel) (hi : InterruptedAt env now k) :
    executeNavigationGoal env fuel now pose =
      Except.ok ⟨false, now + k,
        Action.sendGoal pose :: (List.replicate k Action.waitForResult ++ [Action.cancelGoal])⟩ := by
  simp [executeNavigationGoal, navigationLoop_interrupted env k fuel now hfuel hi]

theorem executeReport_state (env : Env) (b : BranchResult) :
    (executeReport env b).res = ⟨b.success, b.observations, b.error_message⟩ ∧
    (executeReport env b).now = b.now ∧ (executeReport env b).log = b.log ∧
    (executeReport env b).state =
      if b.success then TerminalState.Succeeded
      else if env.isPreemptRequested b.now then TerminalState.Preempted
      else TerminalState.Aborted := by
  unfold executeReport
  cases b.success <;> cases env.isPreemptRequested b.now <;> simp

theorem execute_eq (env : Env) (fuel now : Nat) (command : PlannerAtom) (b : BranchResult)
    (h : executeBranch env fuel now command = Except.ok b) :
    execute env fuel now command = Except.ok (executeReport env b) := by
  simp only [execute, h]

/-- C7. Whenever the branch of a command completes, `execute` reports its
result in the state `Succeeded` if the success flag is set (whatever the
preemption flag), otherwise `Preempted` if the preemption flag read after the
branch is set, otherwise `Aborted`. In particular an `approach` of a door that
resolves and can be approached ends with `success = false` and `Preempted` when
its motion is cut short by a poll that observes a preemption request (a request
that stays raised once raised), and with `success = false` and `Aborted` when
the motion completes in the terminal state `ABORTED` and no preemption is ever
requested. -/
theorem execute_terminal_state (env : Env) (fuel now k : Nat) (command : PlannerAtom)
    (door_name : String) (rest : List String) (approach_pt : Point2f) (approach_yaw : ℚ) :
    (∀ b, executeBranch env fuel now command = Except.ok b →
      ∃ o, execute env fuel now command = Except.ok o ∧
        o.res = ⟨b.success, b.observations, b.error_message⟩ ∧
        o.state =
          if b.success then TerminalState.Succeeded
          else if env.isPreemptRequested b.now then TerminalState.Preempted
          else TerminalState.Aborted) ∧
    (k < fuel →
      (env.nav now).getDoorIdx door_name ≠ (env.nav now).NO_DOOR_IDX →
      (env.nav now).getApproachPoint ((env.nav now).getDoorIdx door_name)
        ⟨(env.nav now).robot_x_, (env.nav now).robot_y_⟩ = some (approach_pt, approach_yaw) →
      InterruptedAt env now k → env.isPreemptRequested (now + k) = true →
      (∀ t, env.isPreemptRequested t = true → env.isPreemptRequested (t + 1) = true) →
      ∃ o, execute env fuel now ⟨"approach", door_name :: rest⟩ = Except.ok o ∧
        o.res.success = false ∧ o.state = TerminalState.Preempted) ∧
    (k < fuel →
      (env.nav now).getDoorIdx door_name ≠ (env.nav now).NO_DOOR_IDX →
      (env.nav now).getApproachPoint ((env.nav now).getDoorIdx door_name)
        ⟨(env.nav now).robot_x_, (env.nav now).robot_y_⟩ = some (approach_pt, approach_yaw) →
      CompletesAt env now k →
      env.getState (now + k + 1) = SimpleClientGoalState.ABORTED →
      (∀ t, env.isPreemptRequested t = false) →
      ∃ o, execute env fuel now ⟨"approach", door_name :: rest⟩ = Except.ok o ∧
        o.res.success = false ∧ o.state = TerminalState.Aborted) := by
  refine ⟨?_, ?_, ?_⟩
  · intro b hb
    obtain ⟨h1, _, _, h4⟩ := executeReport_state env b
    exact ⟨_, execute_eq env fuel now command b hb, h1, h4⟩
  · intro hfuel hdoor hpoint hi hp hsticky
    have hb : ∃ obs log, executeBranch env fuel now ⟨"approach", door_name :: rest⟩ =
        Except.ok ⟨false, obs, "", now + k + 1, log⟩ := by
      rw [executeBranch_approach]
      simp only [approachDoor, hdoor, if_false, Bool.not_false, if_true, hpoint,
        executeNavigationGoal_interrupted env fuel now k _ hfuel hi]
      exact ⟨_, _, rfl⟩
    obtain ⟨obs, log, hb⟩ := hb
    obtain ⟨h1, _, _, h4⟩ := executeReport_state env _
    refine ⟨_, execute_eq env fuel now _ _ hb, by rw [h1], ?_⟩
    rw [h4]
    simp [hsticky _ hp]
  · intro hfuel hdoor hpoint hc hstate hnone
    have hb : ∃ obs log, executeBranch env fuel now ⟨"approach", door_name :: rest⟩ =
        Except.ok ⟨false, obs, "", now + k + 1 + 1, log⟩ := by
      rw [executeBranch_approach]
      simp only [approachDoor, hdoor, if_false, Bool.not_false, if_true, hpoint,
        executeNavigationGoal_completes env fuel now k _ hfuel hc, hstate]
      exact ⟨_, _, rfl⟩
    obtain ⟨obs, log, hb⟩ := hb
    obtain ⟨h1, _, _, h4⟩ := executeReport_state env _
    refine ⟨_, execute_eq env fuel now _ _ hb, by rw [h1], ?_⟩
    rw [h4]
    simp [hnone]

/-- An `approach` of `door1` preempted at its second poll, and one whose motion
the subsystem aborts. -/
theorem execute_terminal_state_witness :
    (∃ o, execute (sampleEnv (fun _ => navigatorOnFloorA) (some 1) 5
          SimpleClientGoalState.SUCCEEDED none) 2 0 ⟨"approach", ["door1"]⟩ = Except.ok o ∧
        o.res.success = false ∧ o.state = TerminalState.Preempted) ∧
    (∃ o, execute (sampleEnv (fun _ => navigatorOnFloorA) none 2
          SimpleClientGoalState.ABORTED none) 3 0 ⟨"approach", ["door1"]⟩ = Except.ok o ∧
        o.res.success = false ∧ o.state = TerminalState.Aborted) :=
  ⟨(execute_terminal_state _ 2 0 1 ⟨"approach", ["door1"]⟩ "door1" [] ⟨1, 2⟩ 0).2.1
      (by decide) (by decide) rfl
      ⟨rfl, fun j hj => by interval_cases j; exact ⟨rfl, rfl⟩⟩ rfl
      (fun t ht => by
        simp only [sampleEnv, decide_eq_true_eq] at ht ⊢
        omega),
   (execute_terminal_state _ 3 0 2 ⟨"approach", ["door1"]⟩ "door1" [] ⟨1, 2⟩ 0).2.2
      (by decide) (by decide) rfl
      ⟨rfl, fun j hj => by interval_cases j <;> rfl, fun j hj => by interval_cases j <;> rfl⟩
      rfl (fun _ => rfl)⟩

theorem changeFloorWait_returns (env : Env) (floor_name : String) (k : Nat) :
    ∀ fuel now, k < fuel →
      (env.nav (now + k)).current_level_id_ = floor_name →
      (∀ j, j < k → (env.nav (now + j)).current_level_id_ ≠ floor_name) →
      changeFloorWait env floor_name fuel now =
        Except.ok ⟨(), now + k, List.replicate k Action.sleep⟩ := by
  induction k with
  | zero =>
    intro fuel now hf heq _
    obtain ⟨f, rfl⟩ : ∃ f, fuel = f + 1 := ⟨fuel - 1, by omega⟩
    rw [Nat.add_zero] at heq
    simp [changeFloorWait, heq]
  | succ k ih =>
    intro fuel now hf heq hne
    obtain ⟨f, rfl⟩ : ∃ f, fuel = f + 1 := ⟨fuel - 1, by omega⟩
    have h0 := hne 0 (Nat.succ_pos k)
    rw [Nat.add_zero] at h0
    have := ih f (now + 1) (by omega)
      (by rw [show now + 1 + k = now + (k + 1) by omega]; exact heq)
      (fun j hj => by
        rw [show now + 1 + j = now + (j + 1) by omega]; exact hne (j + 1) (by omega))
    simp [changeFloorWait, h0, this, List.replicate_succ]
    omega

theorem changeFloorWait_ok (env : Env) (floor_name : String) (fuel : Nat) :
    ∀ now w, changeFloorWait env floor_name fuel now = Except.ok w →
      ∃ k, k < fuel ∧ w.now = now + k ∧ w.log = List.replicate k Action.sleep ∧
        (env.nav (now + k)).current_level_id_ = floor_name ∧
        (∀ j, j < k → (env.nav (now + j)).current_level_id_ ≠ floor_name) := by
  induction fuel with
  | zero => intro now w h; simp [changeFloorWait] at h
  | succ f ih =>
    intro now w h
    rw [changeFloorWait] at h
    by_cases hne : (env.nav now).current_level_id_ ≠ floor_name
    · rw [if_pos hne] at h
      cases hrec : changeFloorWait env floor_name f (now + 1) with
      | error e => rw [hrec] at h; simp at h
      | ok w1 =>
        rw [hrec] at h
        injection h with h
        subst h
        obtain ⟨k, hk, hn, hl, heq, hbefore⟩ := ih (now + 1) w1 hrec
        refine ⟨k + 1, by omega, by simp only [hn]; omega, by simp [hl, List.replicate_succ],
          ?_, ?_⟩
        · rw [show now + (k + 1) = now + 1 + k by omega]; exact heq
        · intro j hj
          rcases Nat.eq_zero_or_pos j with rfl | hpos
          · simpa using hne
          · obtain ⟨i, rfl⟩ : ∃ i, j = i + 1 := ⟨j - 1, by omega⟩
            rw [show now + (i + 1) = now + 1 + i by omega]; exact hbefore i (by omega)
    · rw [if_neg hne] at h
      injection h with h
      subst h
      refine ⟨0, Nat.succ_pos f, rfl, rfl, by simpa using hne, ?_⟩
      intro j hj; omega

/-- Whenever the current floor id equals the requested floor name, whatever the
flag, the registry and the start location, `changeFloor` returns
`success = false`, no atom, and takes no action. -/
theorem changeFloor_equal_floor_fails (env : Env) (fuel now : Nat)
    (floor_name new_start_loc : String) (obs : List PlannerAtom)
    (hsame : (env.nav now).current_level_id_ = floor_name) :
    ∃ r, changeFloor env fuel now floor_name new_start_loc obs = Except.ok r ∧
      r.success = false ∧ r.observations = [] ∧ r.log = [] := by
  cases hflag : (env.nav now).change_level_client_available_
  · refine ⟨⟨false, [], "The robot is already on " ++ floor_name ++ "!", now, []⟩, ?_,
      rfl, rfl, rfl⟩
    simp only [changeFloor, hflag, hsame, if_true]
    rfl
  · refine ⟨⟨false, [],
      "SegbotLogicalNavigator has not received the multimap. Cannot change floors!", now, []⟩,
      ?_, rfl, rfl, rfl⟩
    simp only [changeFloor, hflag, if_true]

/-- C3. The code at the failing input: a robot on `floorB` whose flag
`change_level_client_available_` is set, so that the level client is
available. A `changeFloor` to `floorB` returns `success = false`, no atom and
no action, with the `has not received the multimap` message of the check of
line 375, in which the text `already on` does not occur; the same call with
the flag clear reaches the same-floor check and answers
`The robot is already on floorB!`. -/
theorem changeFloor_available_same_floor :
    navigatorOnFloorB.change_level_client_available_ = true ∧
    navigatorOnFloorB.current_level_id_ = "floorB" ∧
    changeFloor (sampleEnv (fun _ => navigatorOnFloorB) none 2 SimpleClientGoalState.SUCCEEDED
        none) 1 0 "floorB" "startLoc" [] =
      Except.ok ⟨false, [],
        "SegbotLogicalNavigator has not received the multimap. Cannot change floors!",
        0, []⟩ ∧
    ¬ containsText
        "SegbotLogicalNavigator has not received the multimap. Cannot change floors!"
        "already on" ∧
    (navigatorMoving 0 0).change_level_client_available_ = false ∧
    (navigatorMoving 0 0).current_level_id_ = "floorB" ∧
    changeFloor (sampleEnv (navigatorMoving 0) none 2 SimpleClientGoalState.SUCCEEDED none)
        1 0 "floorB" "startLoc" [] =
      Except.ok ⟨false, [], "The robot is already on floorB!", 0, []⟩ :=
  ⟨rfl, rfl, rfl, by set_option maxRecDepth 100000 in decide, rfl, rfl, rfl⟩

/-- C4. The code at the failing input: with the flag
`change_level_client_available_` set, a `changeFloor` to a floor of the
registry and a start location known on it fails with the `has not received the
multimap` message and issues no request, and with the flag clear the same call
issues the request and succeeds. -/
theorem changeFloor_availability_check :
    navigatorFlagSet.change_level_client_available_ = true ∧
    changeFloor (sampleEnv (fun _ => navigatorFlagSet) none 2 SimpleClientGoalState.SUCCEEDED
        (some ⟨true, ""⟩)) 5 0 "floorB" "startLoc" [] =
      Except.ok ⟨false, [],
        "SegbotLogicalNavigator has not received the multimap. Cannot change floors!",
        0, []⟩ ∧
    (navigatorMoving 2 0).change_level_client_available_ = false ∧
    ∃ r, changeFloor (sampleEnv (navigatorMoving 2) none 2 SimpleClientGoalState.SUCCEEDED
        (some ⟨true, ""⟩)) 5 0 "floorB" "startLoc" [] = Except.ok r ∧
      r.success = true ∧ r.error_message = "" ∧
      r.log = [Action.changeLevel sampleRequest, Action.sleep] :=
  ⟨rfl, rfl, rfl, _, rfl, rfl, rfl, rfl⟩

theorem changeFloor_requests (env : Env) (fuel now : Nat) (floor_name new_start_loc : String)
    (obs : List PlannerAtom) (objects : String → Option Pose) (start_pose : Pose)
    (hflag : (env.nav now).change_level_client_available_ = false)
    (hfloor : (env.nav now).current_level_id_ ≠ floor_name)
    (hmap : (env.nav now).level_to_objects_map_ floor_name = some objects)
    (hloc : objects new_start_loc = some start_pose) :
    changeFloor env fuel now floor_name new_start_loc obs =
      match env.change_level_call now
          ⟨floor_name, true, now, env.frameIdFromLevelId floor_name, start_pose,
            initialCovariance⟩ with
      | some response =>
        if !response.success then
          Except.ok ⟨false, [], response.error_message, now + 1,
            [Action.changeLevel ⟨floor_name, true, now, env.frameIdFromLevelId floor_name,
              start_pose, initialCovariance⟩]⟩
        else
          match changeFloorWait env floor_name fuel (now + 1) with
          | Except.error e => Except.error e
          | Except.ok w =>
            Except.ok ⟨true, senseStateAll (env.nav w.now) [], "", w.now + 1,
              Action.changeLevel ⟨floor_name, true, now, env.frameIdFromLevelId floor_name,
                start_pose, initialCovariance⟩ :: w.log⟩
      | none =>
        Except.ok ⟨false, [], "ChangeCurrentLevel service call failed for unknown reason.",
          now + 1,
          [Action.changeLevel ⟨floor_name, true, now, env.frameIdFromLevelId floor_name,
            start_pose, initialCovariance⟩]⟩ := by
  simp only [changeFloor, hflag, hfloor, hmap, hloc, if_false, Bool.false_eq_true]

theorem changeFloor_success (env : Env) (fuel now : Nat) (floor_name new_start_loc : String)
    (obs : List PlannerAtom) (r : BranchResult)
    (h : changeFloor env fuel now floor_name new_start_loc obs = Except.ok r)
    (hs : r.success = true) :
    ∃ objects start_pose response k,
      (env.nav now).level_to_objects_map_ floor_name = some objects ∧
      objects new_start_loc = some start_pose ∧
      env.change_level_call now
        ⟨floor_name, true, now, env.frameIdFromLevelId floor_name, start_pose,
          initialCovariance⟩ = some response ∧
      response.success = true ∧
      (env.nav (now + 1 + k)).current_level_id_ = floor_name ∧
      (∀ j, j < k → (env.nav (now + 1 + j)).current_level_id_ ≠ floor_name) ∧
      r.observations =
        senseState (env.nav (now + 1 + k)) [] (env.nav (now + 1 + k)).NO_DOOR_IDX ∧
      r.now = now + 1 + k + 1 ∧
      r.log = Action.changeLevel ⟨floor_name, true, now, env.frameIdFromLevelId floor_name,
        start_pose, initialCovariance⟩ :: List.replicate k Action.sleep := by
  unfold changeFloor at h
  simp only at h
  split at h
  · injection h with h; subst h; cases hs
  · split at h
    · injection h with h; subst h; cases hs
    · split at h
      · injection h with h; subst h; cases hs
      · rename_i objects hmap
        split at h
        · injection h with h; subst h; cases hs
        · rename_i start_pose hloc
          split at h
          · rename_i response hcall
            split at h
            · injection h with h; subst h; cases hs
            · rename_i hresp
              split at h
              · cases h
              · rename_i w hw
                injection h with h
                subst h
                obtain ⟨k, _, hn, hl, heq, hbefore⟩ := changeFloorWait_ok env floor_name fuel _ w hw
                refine ⟨objects, start_pose, response, k, hmap, hloc, hcall,
                  by simpa using hresp, heq, hbefore, ?_, ?_, ?_⟩
                · simp only [senseStateAll, hn]
                · simp only [hn]
                · simp only [hl]
          · injection h with h; subst h; cases hs
theorem changeFloor_log (env : Env) (fuel now : Nat) (floor_name new_start_loc : String)
    (obs : List PlannerAtom) (r : BranchResult)
    (h : changeFloor env fuel now floor_name new_start_loc obs = Except.ok r)
    (hlog : r.log ≠ []) :
    ∃ objects start_pose,
      (env.nav now).level_to_objects_map_ floor_name = some objects ∧
      objects new_start_loc = some start_pose := by
  unfold changeFloor at h
  simp only at h
  split at h
  · injection h with h; subst h; exact absurd rfl hlog
  · split at h
    · injection h with h; subst h; exact absurd rfl hlog
    · split at h
      · injection h with h; subst h; exact absurd rfl hlog
      · rename_i objects hmap
        split at h
        · injection h with h; subst h; exact absurd rfl hlog
        · rename_i start_pose hloc
          exact ⟨objects, start_pose, hmap, hloc⟩

/-- C9. With the current-floor field sampled at each tick of the wait loop:
whenever `changeFloor` returns `success = true`, its request was answered with
success, the current floor id equals the target floor at the tick at which it
leaves the loop, which is the first tick after the answer at which they are
equal, and its atoms are a full unfiltered state sensing of that tick; and it
does return so, given enough fuel, when the four checks pass, the request is
answered with success and the floor id becomes equal at some tick. When the
checks pass and the request gets no response, or a response of failure, it
returns `false` one tick later, without any sleep, with the generic
service-failure message or the error message of the response. -/
theorem changeFloor_waits (env : Env) (fuel now k : Nat) (floor_name new_start_loc : String)
    (obs : List PlannerAtom) (objects : String → Option Pose) (start_pose : Pose)
    (response : ChangeCurrentLevelResponse) :
    (∀ r, changeFloor env fuel now floor_name new_start_loc obs = Except.ok r →
      r.success = true →
      ∃ objects1 start_pose1 response1 k1,
        (env.nav now).level_to_objects_map_ floor_name = some objects1 ∧
        objects1 new_start_loc = some start_pose1 ∧
        env.change_level_call now
          ⟨floor_name, true, now, env.frameIdFromLevelId floor_name, start_pose1,
            initialCovariance⟩ = some response1 ∧
        response1.success = true ∧
        (env.nav (now + 1 + k1)).current_level_id_ = floor_name ∧
        (∀ j, j < k1 → (env.nav (now + 1 + j)).current_level_id_ ≠ floor_name) ∧
        r.observations =
          senseState (env.nav (now + 1 + k1)) [] (env.nav (now + 1 + k1)).NO_DOOR_IDX ∧
        r.now = now + 1 + k1 + 1 ∧
        r.log = Action.changeLevel ⟨floor_name, true, now, env.frameIdFromLevelId floor_name,
          start_pose1, initialCovariance⟩ :: List.replicate k1 Action.sleep) ∧
    ((env.nav now).change_level_client_available_ = false →
      (env.nav now).current_level_id_ ≠ floor_name →
      (env.nav now).level_to_objects_map_ floor_name = some objects →
      objects new_start_loc = some start_pose →
      (env.change_level_call now
          ⟨floor_name, true, now, env.frameIdFromLevelId floor_name, start_pose,
            initialCovariance⟩ = some response →
        response.success = true → k < fuel →
        (env.nav (now + 1 + k)).current_level_id_ = floor_name →
        (∀ j, j < k → (env.nav (now + 1 + j)).current_level_id_ ≠ floor_name) →
        changeFloor env fuel now floor_name new_start_loc obs =
          Except.ok ⟨true,
            senseState (env.nav (now + 1 + k)) [] (env.nav (now + 1 + k)).NO_DOOR_IDX, "",
            now + 1 + k + 1,
            Action.changeLevel ⟨floor_name, true, now, env.frameIdFromLevelId floor_name,
              start_pose, initialCovariance⟩ :: List.replicate k Action.sleep⟩) ∧
      (env.change_level_call now
          ⟨floor_name, true, now, env.frameIdFromLevelId floor_name, start_pose,
            initialCovariance⟩ = none →
        changeFloor env fuel now floor_name new_start_loc obs =
          Except.ok ⟨false, [], "ChangeCurrentLevel service call failed for unknown reason.",
            now + 1,
            [Action.changeLevel ⟨floor_name, true, now, env.frameIdFromLevelId floor_name,
              start_pose, initialCovariance⟩]⟩) ∧
      (env.change_level_call now
          ⟨floor_name, true, now, env.frameIdFromLevelId floor_name, start_pose,
            initialCovariance⟩ = some response →
        response.success = false →
        changeFloor env fuel now floor_name new_start_loc obs =
          Except.ok ⟨false, [], response.error_message, now + 1,
            [Action.changeLevel ⟨floor_name, true, now, env.frameIdFromLevelId floor_name,
              start_pose, initialCovariance⟩]⟩)) := by
  refine ⟨fun r h hs => changeFloor_success env fuel now floor_name new_start_loc obs r h hs,
    ?_⟩
  intro hflag hfloor hmap hloc
  have hreq := changeFloor_requests env fuel now floor_name new_start_loc obs objects
    start_pose hflag hfloor hmap hloc
  refine ⟨?_, ?_, ?_⟩
  · intro hcall hresp hfuel heq hbefore
    rw [hreq, hcall]
    simp only [hresp, Bool.not_true, Bool.false_eq_true, if_false,
      changeFloorWait_returns env floor_name k fuel (now + 1) hfuel heq hbefore, senseStateAll]
  · intro hcall
    rw [hreq, hcall]
  · intro hcall hresp
    rw [hreq, hcall]
    simp only [hresp, Bool.not_false, if_true]

/-- A `changeFloor` that waits one tick for the floor to change, one whose
request gets no response, and one whose request is answered with a failure. -/
theorem changeFloor_waits_witness :
    changeFloor (sampleEnv (navigatorMoving 2) none 2 SimpleClientGoalState.SUCCEEDED
        (some ⟨true, ""⟩)) 5 0 "floorB" "startLoc" [] =
      Except.ok ⟨true, senseState (navigatorMoving 2 2) [] (navigatorMoving 2 2).NO_DOOR_IDX,
        "", 3, [Action.changeLevel sampleRequest, Action.sleep]⟩ ∧
    changeFloor (sampleEnv (navigatorMoving 2) none 2 SimpleClientGoalState.SUCCEEDED none)
        5 0 "floorB" "startLoc" [] =
      Except.ok ⟨false, [], "ChangeCurrentLevel service call failed for unknown reason.", 1,
        [Action.changeLevel sampleRequest]⟩ ∧
    changeFloor (sampleEnv (navigatorMoving 2) none 2 SimpleClientGoalState.SUCCEEDED
        (some ⟨false, "level mux is busy"⟩)) 5 0 "floorB" "startLoc" [] =
      Except.ok ⟨false, [], "level mux is busy", 1, [Action.changeLevel sampleRequest]⟩ :=
  ⟨((changeFloor_waits (sampleEnv (navigatorMoving 2) none 2 SimpleClientGoalState.SUCCEEDED
        (some ⟨true, ""⟩)) 5 0 1 "floorB" "startLoc" [] _ ⟨⟨7, 8, 0⟩, ⟨0, 0, 0, 1⟩⟩
        ⟨true, ""⟩).2 rfl (by decide) rfl rfl).1 rfl rfl (by decide) rfl
        (fun j hj => by interval_cases j; decide),
   ((changeFloor_waits (sampleEnv (navigatorMoving 2) none 2 SimpleClientGoalState.SUCCEEDED
        none) 5 0 1 "floorB" "startLoc" [] _ ⟨⟨7, 8, 0⟩, ⟨0, 0, 0, 1⟩⟩
        ⟨true, ""⟩).2 rfl (by decide) rfl rfl).2.1 rfl,
   ((changeFloor_waits (sampleEnv (navigatorMoving 2) none 2 SimpleClientGoalState.SUCCEEDED
        (some ⟨false, "level mux is busy"⟩)) 5 0 1 "floorB" "startLoc" [] _
        ⟨⟨7, 8, 0⟩, ⟨0, 0, 0, 1⟩⟩ ⟨false, "level mux is busy"⟩).2
        rfl (by decide) rfl rfl).2.2 rfl rfl⟩

/-- C10. The `changefloor` branch of the dispatcher is `changeFloor` with the
first argument of the command as the floor name and as the start location,
whatever follows the first argument, and `execute` reports its result. So a
dispatched `changefloor` issues a floor-switch request only if the object map
of the target floor has an object named like the floor, and when the first
three checks pass and there is no such object it fails with the `has not been
defined` message. -/
theorem execute_changefloor_arguments (env : Env) (fuel now : Nat) (a : String)
    (rest : List String) (objects : String → Option Pose) :
    executeBranch env fuel now ⟨"changefloor", a :: rest⟩ = changeFloor env fuel now a a [] ∧
    (∀ b, changeFloor env fuel now a a [] = Except.ok b →
      execute env fuel now ⟨"changefloor", a :: rest⟩ = Except.ok (executeReport env b)) ∧
    (∀ o req, execute env fuel now ⟨"changefloor", a :: rest⟩ = Except.ok o →
      Action.changeLevel req ∈ o.log →
      ∃ objects1 start_pose, (env.nav now).level_to_objects_map_ a = some objects1 ∧
        objects1 a = some start_pose) ∧
    ((env.nav now).change_level_client_available_ = false →
      (env.nav now).current_level_id_ ≠ a →
      (env.nav now).level_to_objects_map_ a = some objects →
      objects a = none →
      execute env fuel now ⟨"changefloor", a :: rest⟩ =
        Except.ok (executeReport env ⟨false, [],
          "Location " ++ a ++ " on floor " ++ a ++ " has not been defined as a valid object!",
          now, []⟩)) := by
  have hb := executeBranch_changefloor env fuel now a rest
  refine ⟨hb, ?_, ?_, ?_⟩
  · intro b h
    exact execute_eq env fuel now _ b (hb.trans h)
  · intro o req h hreq
    unfold execute at h
    rw [hb] at h
    cases hc : changeFloor env fuel now a a [] with
    | error e => rw [hc] at h; simp at h
    | ok b =>
      rw [hc] at h
      injection h with h
      subst h
      have hlog : b.log ≠ [] := by
        intro hnil
        rw [(executeReport_state env b).2.2.1, hnil] at hreq
        cases hreq
      exact changeFloor_log env fuel now a a [] b hc hlog
  · intro hflag hfloor hmap hloc
    apply execute_eq
    rw [hb]
    simp only [changeFloor, hflag, hfloor, hmap, hloc, if_false, Bool.false_eq_true]

/-- A dispatched `changefloor floorB startLoc`: the second argument is not read
and `floorB` is not an object of `floorB`. -/
theorem execute_changefloor_arguments_witness :
    execute (sampleEnv (fun _ => navigatorOnFloorA) none 2 SimpleClientGoalState.SUCCEEDED
        (some ⟨true, ""⟩)) 5 0 ⟨"changefloor", ["floorB", "startLoc"]⟩ =
      Except.ok ⟨⟨false, [],
        "Location floorB on floor floorB has not been defined as a valid object!"⟩,
        TerminalState.Aborted, 0, []⟩ :=
  (execute_changefloor_arguments (sampleEnv (fun _ => navigatorOnFloorA) none 2
    SimpleClientGoalState.SUCCEEDED (some ⟨true, ""⟩)) 5 0 "floorB" ["startLoc"]
    (fun loc => if loc = "startLoc" then some ⟨⟨7, 8, 0⟩, ⟨0, 0, 0, 1⟩⟩ else none)).2.2.2
    rfl (by decide) rfl rfl

end SegbotLogicalNavigator
